import Mathlib

/-!
Shallow embedding of `src/edider/x11read.py`: a read-only X11/RandR monitor
inspection utility.  The display server is modelled as an explicit record of
query answers (`Server`); each Python property becomes a Lean function that
takes the accessor state and the server state and returns the result
together with the updated accessor state.  Python exceptions become
`Except PyErr`; a Python dict with a fixed schema whose keys may be absent
becomes a record of `Option` fields (an absent key, i.e. `KeyError`, is
`none`).  The window lifecycle of `get_window` is tracked by an explicit
created/destroyed counter, with the exact control flow of a
`contextlib.contextmanager` generator: the code after `yield` runs only
when the body returns normally.
-/

namespace Edider

/-- Error kinds raised by the Python layer: `XError` from the X server,
`IndexError` from list indexing, `AssertionError` from `assert`. -/
inductive PyErr where
  | xError
  | indexError
  | assertionError
deriving DecidableEq, Repr

/-- A display mode as it appears in the screen resources reply
(`res._data['modes']`); the Python code reads the keys `id`, `width`
and `height`. -/
structure XMode where
  id : Nat
  width : Nat
  height : Nat
deriving DecidableEq, Repr

/-- The `_data` dict of a CRTC info reply.  Each field may be absent
(in particular the empty record `{}` substituted on a caught `XError`
has every field absent). -/
structure CrtcData where
  x : Option Int
  y : Option Int
  width : Option Nat
  height : Option Nat
  mode : Option Nat
deriving DecidableEq, Repr

/-- The empty info record `{}`. -/
def emptyCrtcData : CrtcData :=
  { x := none, y := none, width := none, height := none, mode := none }

/-- The `_data` dict of an output info reply (`randr.get_output_info`). -/
structure OutputData where
  name : String
  connection : Nat
  crtc : Nat
  crtcs : List Nat
  modes : List Nat
  num_preferred : Nat
deriving DecidableEq, Repr

/-- The display-server state visible to the queries issued by the code:
the screen resources output list, per-output info, per-CRTC info (a CRTC
query may fail with an `XError`), the screen mode list, the EDID property
bytes per output, and the current primary output id. -/
structure Server where
  outputs : List Nat
  outputInfo : Nat → OutputData
  crtcQuery : Nat → Except PyErr CrtcData
  modes : List XMode
  edidProp : Nat → List Nat
  primary : Nat

/-- Window bookkeeping for `get_window`: how many windows were created
and how many were destroyed. -/
structure WinLog where
  created : Nat
  destroyed : Nat
deriving DecidableEq, Repr

/-- `get_window`: the `contextlib.contextmanager` scope of the source.
It creates a window, runs the body on its handle, and executes
`window.destroy()` (the code after `yield`) only when the body returns
normally; when the body raises, the exception is rethrown at the `yield`
and, there being no `try/finally`, the destroy line is skipped. -/
def get_window (body : Nat → Except PyErr α) (log : WinLog) :
    Except PyErr α × WinLog :=
  let log1 : WinLog := { log with created := log.created + 1 }
  match body log1.created with
  | .ok a => (.ok a, { log1 with destroyed := log1.destroyed + 1 })
  | .error e => (.error e, log1)

/-- `randr.get_output_info(window, output, 0)._data`. -/
def get_output_info (srv : Server) (idx : Nat) : OutputData :=
  srv.outputInfo idx

/-- The enumeration loop of `get_connected_outputs`: for each output in
the screen resources list, keep it iff its info reports `connection == 0`. -/
def connectedLoop (srv : Server) : List Nat → List Nat
  | [] => []
  | o :: rest =>
    if (get_output_info srv o).connection == 0 then o :: connectedLoop srv rest
    else connectedLoop srv rest

/-- `get_connected_outputs`: yield the X11 index of each connected output. -/
def get_connected_outputs (srv : Server) : List Nat :=
  connectedLoop srv srv.outputs

/-- The `CRTCInfo` namedtuple `(idx, info)`. -/
structure CRTCInfo where
  idx : Nat
  info : CrtcData
deriving DecidableEq, Repr

/-- One iteration of the `crtc_info` loop: query the CRTC, and on any
`XError` substitute the empty info record `{}`. -/
def crtcOne (srv : Server) (idx : Nat) : CRTCInfo :=
  { idx := idx
    info := match srv.crtcQuery idx with
      | .ok d => d
      | .error _ => emptyCrtcData }

/-- The body loop of `crtc_info` over all requested ids. -/
def crtcLoop (srv : Server) : List Nat → List CRTCInfo
  | [] => []
  | idx :: rest => crtcOne srv idx :: crtcLoop srv rest

/-- `crtc_info(*crtc_idx)`: one scope for all ids; every `XError` raised
by `randr.get_crtc_info` is caught inside the loop, so the sequence itself
is produced without raising. -/
def crtc_info (srv : Server) (idxs : List Nat) : Except PyErr (List CRTCInfo) :=
  .ok (crtcLoop srv idxs)

/-- The `X11Output` accessor: an output id plus the three lazy caches
(`self._edid`, `self._info`, `self._modes`); `none` models the attribute
being unset (the `AttributeError` branch of each property). -/
structure X11Output where
  idx : Nat
  _edid : Option (List Nat)
  _info : Option OutputData
  _modes : Option (List XMode)
deriving DecidableEq, Repr

/-- `X11Output.__init__`: only `idx` is set; no cache is populated. -/
def X11Output.mkIdx (idx : Nat) : X11Output :=
  { idx := idx, _edid := none, _info := none, _modes := none }

/-- The `edid` property: return the cache if set, otherwise read the
`EDID` property bytes from the server, cache and return them.  The third
component counts how many property queries the call issued. -/
def X11Output.edid (o : X11Output) (srv : Server) :
    List Nat × X11Output × Nat :=
  match o._edid with
  | some b => (b, o, 0)
  | none =>
    let b := srv.edidProp o.idx
    (b, { o with _edid := some b }, 1)

/-- Iterated reads of `edid` on one accessor instance, each against the
server state current at that read; returns the list of results, the final
accessor state, and the total number of property queries issued. -/
def edidReads (o : X11Output) : List Server → List (List Nat) × X11Output × Nat
  | [] => ([], o, 0)
  | s :: rest =>
    let r := X11Output.edid o s
    let r2 := edidReads r.2.1 rest
    (r.1 :: r2.1, r2.2.1, r.2.2 + r2.2.2)

/-- The `idx_primary` property: `randr.get_output_primary(window).output`
for screen 0, fetched fresh on every access and never stored on `self`. -/
def X11Output.idx_primary (o : X11Output) (srv : Server) : Nat :=
  srv.primary

/-- The `info` property: return the cache if set, otherwise fetch the
output info for `self.idx`, cache and return it. -/
def X11Output.info (o : X11Output) (srv : Server) : OutputData × X11Output :=
  match o._info with
  | some d => (d, o)
  | none =>
    let d := get_output_info srv o.idx
    (d, { o with _info := some d })

/-- The `crtc` property: `next(crtc_info(self.info['crtc']))`, i.e. the
first (and only) element produced for the single id `self.info['crtc']`. -/
def X11Output.crtc (o : X11Output) (srv : Server) : CRTCInfo × X11Output :=
  let r := o.info srv
  (crtcOne srv r.1.crtc, r.2)

/-- `_get_modes`: fetch screen resources afresh and extract the mode list. -/
def X11Output._get_modes (o : X11Output) (srv : Server) : List XMode :=
  srv.modes

/-- The `modes` property: return the cache if set, otherwise call
`_get_modes`, cache and return the result. -/
def X11Output.modes (o : X11Output) (srv : Server) :
    List XMode × X11Output :=
  match o._modes with
  | some m => (m, o)
  | none =>
    let m := o._get_modes srv
    (m, { o with _modes := some m })

/-- Python list indexing `l[i]`: a negative index counts from the end;
`none` is an `IndexError`. -/
def pyIndex (l : List α) (i : Int) : Option α :=
  let j := if i < 0 then (l.length : Int) + i else i
  if j < 0 then none else l.get? j.toNat

/-- The `preferred_mode` property:
`npref = self.info['num_preferred']`; `nmode = self.info['modes'][npref-1]`
(Python indexing, so `npref = 0` wraps to the last element);
filter `self.modes` by `id == nmode` and assert exactly one match. -/
def X11Output.preferred_mode (o : X11Output) (srv : Server) :
    Except PyErr XMode × X11Output :=
  let r1 := o.info srv
  let npref := r1.1.num_preferred
  let r2 := r1.2.info srv
  match pyIndex r2.1.modes ((npref : Int) - 1) with
  | none => (.error .indexError, r2.2)
  | some nmode =>
    let r3 := r2.2.modes srv
    match r3.1.filter (fun x => x.id == nmode) with
    | [m] => (.ok m, r3.2)
    | _ => (.error .assertionError, r3.2)

/-- The `current_mode` property: fetch the mode list fresh via
`_get_modes` (bypassing the `modes` cache), resolve `self.crtc.info['mode']`
(returning `{}`, modelled `none`, on `KeyError`), then filter the fresh
list by the active mode id and assert exactly one match. -/
def X11Output.current_mode (o : X11Output) (srv : Server) :
    Except PyErr (Option XMode) × X11Output :=
  let ms := o._get_modes srv
  let r := o.crtc srv
  match r.1.info.mode with
  | none => (.ok none, r.2)
  | some mode_id =>
    match ms.filter (fun x => x.id == mode_id) with
    | [m] => (.ok (some m), r.2)
    | _ => (.error .assertionError, r.2)

/-- The `Geometry` namedtuple `(x, y, width, height)`. -/
structure Geometry where
  x : Int
  y : Int
  width : Nat
  height : Nat
deriving DecidableEq, Repr

/-- The `Monitor` facade: the output id and the wrapped accessor. -/
structure Monitor where
  _id : Nat
  _xout : X11Output
deriving DecidableEq, Repr

/-- `Monitor.__init__(index)`. -/
def Monitor.mkIdx (index : Nat) : Monitor :=
  { _id := index, _xout := X11Output.mkIdx index }

/-- The `is_primary` property: `xo.idx == xo.idx_primary`. -/
def Monitor.is_primary (m : Monitor) (srv : Server) : Bool :=
  m._xout.idx == m._xout.idx_primary srv

/-- The `geometry` property: read `d['x'], d['y'], d['width'], d['height']`
from `self._xout.crtc.info`; if any key is absent the `KeyError` branch
sets all four to 0. -/
def Monitor.geometry (m : Monitor) (srv : Server) : Geometry × Monitor :=
  let r := m._xout.crtc srv
  let d := r.1.info
  let g : Geometry :=
    match d.x, d.y, d.width, d.height with
    | some x, some y, some w, some h =>
      { x := x, y := y, width := w, height := h }
    | _, _, _, _ => { x := 0, y := 0, width := 0, height := 0 }
  (g, { m with _xout := r.2 })

/-- Sample mode with id 10. -/
def modeA : XMode := { id := 10, width := 640, height := 480 }

/-- Sample mode with id 20. -/
def modeB : XMode := { id := 20, width := 1024, height := 768 }

/-- Sample mode with id 30. -/
def modeC : XMode := { id := 30, width := 1920, height := 1080 }

/-- Sample output info: connected, CRTC 7, preferred mode index 2. -/
def infoSample : OutputData :=
  { name := "HDMI-1", connection := 0, crtc := 7, crtcs := [7]
    modes := [10, 20, 30], num_preferred := 2 }

/-- Sample CRTC info with all geometry fields present and active mode 20. -/
def crtcSample : CrtcData :=
  { x := some 5, y := some 6, width := some 1024, height := some 768
    mode := some 20 }

/-- Sample server: output 1 connected, output 2 disconnected; CRTC id 0
fails as usual; primary output 1. -/
def srvSample : Server :=
  { outputs := [1, 2]
    outputInfo := fun i =>
      if i == 1 then infoSample else { infoSample with connection := 1 }
    crtcQuery := fun i => if i == 0 then .error .xError else .ok crtcSample
    modes := [modeA, modeB, modeC]
    edidProp := fun _ => [0, 255, 255, 255]
    primary := 1 }

/-- A second server state: the EDID property bytes and the primary output
have changed since `srvSample`. -/
def srvAlt : Server :=
  { srvSample with edidProp := fun _ => [9, 9], primary := 2 }

/-- A server whose CRTC query fails for id 5 (a non-zero id). -/
def srvCrtcFail : Server :=
  { srvSample with
    crtcQuery := fun i => if i == 5 then .error .xError else .ok crtcSample }

/-- A server reporting `num_preferred = 0` for every output. -/
def srvZero : Server :=
  { srvSample with
    outputInfo := fun _ => { infoSample with num_preferred := 0 } }

/-- The sample CRTC info with its `height` field absent. -/
def crtcNoHeight : CrtcData := { crtcSample with height := none }

/-- A server whose CRTC queries all answer with `crtcNoHeight`. -/
def srvNoHeight : Server :=
  { srvSample with crtcQuery := fun _ => Except.ok crtcNoHeight }

/-- Fresh sample accessor for output 1. -/
def oSample : X11Output := X11Output.mkIdx 1

/-- Fresh sample monitor facade for output 1. -/
def monSample : Monitor := Monitor.mkIdx 1

/-- A second access to `info` returns the same value and state as the
first: the first access populates the cache, the second one reads it. -/
theorem info_again (o : X11Output) (srv : Server) :
    X11Output.info (X11Output.info o srv).2 srv = X11Output.info o srv := by
  cases h : o._info with
  | some d => simp [X11Output.info, h]
  | none => simp [X11Output.info, h]

/-- Accessing `info` never touches the `_modes` cache. -/
theorem info_preserves_modes (o : X11Output) (srv : Server) :
    ((X11Output.info o srv).2)._modes = o._modes := by
  cases h : o._info with
  | some d => simp [X11Output.info, h]
  | none => simp [X11Output.info, h]

/-- The value of the `modes` property only depends on the `_modes` cache
(and the server). -/
theorem modes_fst_congr (o o2 : X11Output) (srv : Server)
    (h : o._modes = o2._modes) :
    (X11Output.modes o srv).1 = (X11Output.modes o2 srv).1 := by
  cases h2 : o._modes with
  | some m => simp [X11Output.modes, h2, h ▸ h2]
  | none => simp [X11Output.modes, X11Output._get_modes, h2, h ▸ h2]

/-- The value of the `crtc` property only depends on the `_info` cache,
the output id and the server, not on the `_modes` cache. -/
theorem crtc_fst_indep_modes (o : X11Output) (srv : Server)
    (c : Option (List XMode)) :
    (X11Output.crtc { o with _modes := c } srv).1 = (X11Output.crtc o srv).1 := by
  cases h : o._info with
  | some d => simp [X11Output.crtc, X11Output.info, h]
  | none => simp [X11Output.crtc, X11Output.info, h]

/-- Accessing `crtc` never touches the `_modes` cache. -/
theorem crtc_preserves_modes (o : X11Output) (srv : Server) :
    ((X11Output.crtc o srv).2)._modes = o._modes := by
  cases h : o._info with
  | some d => simp [X11Output.crtc, X11Output.info, h]
  | none => simp [X11Output.crtc, X11Output.info, h]

/-- For a 1-based index `k ≥ 1`, Python indexing at `k - 1` is plain
zero-based indexing. -/
theorem pyIndex_of_pos (l : List α) (k : Nat) (h : 1 ≤ k) :
    pyIndex l ((k : Int) - 1) = l.get? (k - 1) := by
  have h0 : ¬ ((k : Int) - 1 < 0) := by omega
  have h1 : ((k : Int) - 1).toNat = k - 1 := by omega
  simp [pyIndex, h0, h1]

/-- Python indexing at `-1` on a non-empty list returns the last element. -/
theorem pyIndex_neg_one (l : List α) (h : l ≠ []) :
    pyIndex l (-1) = some (l.getLast h) := by
  have hl : 0 < l.length := List.length_pos.mpr h
  have h0 : (-1 : Int) < 0 := by omega
  have h1 : ¬ ((l.length : Int) + (-1) < 0) := by omega
  have h2 : ((l.length : Int) + (-1)).toNat = l.length - 1 := by omega
  simp only [pyIndex, if_pos h0, if_neg h1, h2]
  rw [List.getLast_eq_get]
  exact List.get?_eq_get _

/-- The `crtcLoop` body is a map of `crtcOne` over the requested ids. -/
theorem crtcLoop_eq_map (srv : Server) (idxs : List Nat) :
    crtcLoop srv idxs = idxs.map (crtcOne srv) := by
  induction idxs with
  | nil => rfl
  | cons i rest ih => simp [crtcLoop, ih]

/-- The `connectedLoop` body is a filter over the traversed list. -/
theorem connectedLoop_eq_filter (srv : Server) (l : List Nat) :
    connectedLoop srv l
      = l.filter (fun o => (get_output_info srv o).connection == 0) := by
  induction l with
  | nil => rfl
  | cons o rest ih =>
    by_cases h : (get_output_info srv o).connection == 0 <;>
      simp [connectedLoop, List.filter, h, ih]

/-- C1: the claim says `get_window` destroys the created window on every
exit path, also when the body raises.  The code disagrees: the
`contextmanager` has no `try/finally`, so a raising body skips
`window.destroy()` and the window leaks, while a normally returning body
does get its window destroyed. -/
theorem get_window_leak_on_error :
    (get_window (fun _ => (Except.error PyErr.xError : Except PyErr Unit))
        { created := 0, destroyed := 0 }).2
      = { created := 1, destroyed := 0 }
    ∧ (get_window (fun _ => (Except.ok () : Except PyErr Unit))
        { created := 0, destroyed := 0 }).2
      = { created := 1, destroyed := 1 } :=
  ⟨rfl, rfl⟩

/-- C2 counterexample: the claim says an `XError` of the CRTC query for an
id other than 0 propagates to the caller; in the code the `except XError`
inside the loop catches it for every id, so for a server whose query for
id 5 fails, `crtc_info` still succeeds and yields `(5, {})`. -/
theorem crtc_info_catches_nonzero_id :
    (∃ e, srvCrtcFail.crtcQuery 5 = Except.error e)
    ∧ crtc_info srvCrtcFail [5]
      = Except.ok [{ idx := 5, info := emptyCrtcData }] :=
  ⟨⟨PyErr.xError, rfl⟩, rfl⟩

/-- C2 (amended): `crtc_info` never raises: every `XError` of the CRTC
query, for id 0 or any other id, is caught and replaced by the pair
`(id, {})`, and each id whose query succeeds yields `(id, its info)`. -/
theorem crtc_info_catch_spec (srv : Server) (idxs : List Nat) :
    crtc_info srv idxs = Except.ok (idxs.map (crtcOne srv))
    ∧ (∀ idx d, srv.crtcQuery idx = Except.ok d →
        crtcOne srv idx = { idx := idx, info := d })
    ∧ (∀ idx e, srv.crtcQuery idx = Except.error e →
        crtcOne srv idx = { idx := idx, info := emptyCrtcData }) := by
  refine ⟨by simp [crtc_info, crtcLoop_eq_map], ?_, ?_⟩
  · intro idx d h
    simp [crtcOne, h]
  · intro idx e h
    simp [crtcOne, h]

/-- C2 witness: applying the amended theorem at the sample server, the
failing query for id 5 yields the empty record and the succeeding query
for id 7 yields its info. -/
theorem crtc_info_catch_spec_witness :
    crtcOne srvCrtcFail 5 = { idx := 5, info := emptyCrtcData }
    ∧ crtcOne srvCrtcFail 7 = { idx := 7, info := crtcSample } :=
  ⟨(crtc_info_catch_spec srvCrtcFail [5, 7]).2.2 5 PyErr.xError rfl,
   (crtc_info_catch_spec srvCrtcFail [5, 7]).2.1 7 crtcSample rfl⟩

/-- C6: the output enumerator returns exactly the outputs of the
server-reported list whose info has connection state 0, every output with
a non-zero connection value excluded, in the server-reported order (the
result is a sublist of the reported list). -/
theorem get_connected_outputs_spec (srv : Server) :
    get_connected_outputs srv
      = srv.outputs.filter (fun o => (get_output_info srv o).connection == 0)
    ∧ List.Sublist (get_connected_outputs srv) srv.outputs
    ∧ ∀ o, o ∈ get_connected_outputs srv
        ↔ o ∈ srv.outputs ∧ (srv.outputInfo o).connection = 0 := by
  have hf := connectedLoop_eq_filter srv srv.outputs
  refine ⟨hf, ?_, ?_⟩
  · rw [get_connected_outputs, hf]
    exact List.filter_sublist _
  · intro o
    rw [get_connected_outputs, hf, List.mem_filter]
    simp [get_output_info]

/-- C6 witness: at the sample server only output 1 is connected. -/
theorem get_connected_outputs_spec_witness :
    get_connected_outputs srvSample = [1]
    ∧ (1 ∈ get_connected_outputs srvSample
        ↔ 1 ∈ srvSample.outputs ∧ (srvSample.outputInfo 1).connection = 0) :=
  ⟨by rw [(get_connected_outputs_spec srvSample).1]; rfl,
   (get_connected_outputs_spec srvSample).2.2 1⟩

/-- C3: when the output info has `num_preferred = k` with `1 ≤ k` and
`info.modes[k-1]` exists and equals `nmode`, `preferred_mode` returns the
unique mode of the screen mode list with id `nmode` when exactly one such
mode exists, and fails with the assertion when the number of matches is
not one. -/
theorem preferred_mode_spec (o : X11Output) (srv : Server) (k nmode : Nat)
    (hk : (X11Output.info o srv).1.num_preferred = k) (h1 : 1 ≤ k)
    (hn : (X11Output.info o srv).1.modes.get? (k - 1) = some nmode) :
    (∀ m, (X11Output.modes o srv).1.filter (fun x => x.id == nmode) = [m] →
        (X11Output.preferred_mode o srv).1 = Except.ok m)
    ∧ (((X11Output.modes o srv).1.filter (fun x => x.id == nmode)).length ≠ 1 →
        (X11Output.preferred_mode o srv).1
          = Except.error PyErr.assertionError) := by
  have hmodes : (X11Output.modes (X11Output.info o srv).2 srv).1
      = (X11Output.modes o srv).1 :=
    modes_fst_congr _ _ srv (info_preserves_modes o srv)
  constructor
  · intro m hm
    simp only [X11Output.preferred_mode, info_again, hk,
      pyIndex_of_pos _ k h1, hn, hmodes, hm]
  · intro hL
    simp only [X11Output.preferred_mode, info_again, hk,
      pyIndex_of_pos _ k h1, hn, hmodes]
    cases hfil : (X11Output.modes o srv).1.filter (fun x => x.id == nmode) with
    | nil => simp
    | cons a t =>
      cases t with
      | nil => rw [hfil] at hL; exact absurd rfl hL
      | cons b t2 => simp

/-- C3 witness: at the sample server (`num_preferred = 2`,
`modes = [10, 20, 30]`, one screen mode with id 20) the resolved preferred
mode is that mode. -/
theorem preferred_mode_spec_witness :
    (X11Output.preferred_mode oSample srvSample).1 = Except.ok modeB :=
  (preferred_mode_spec oSample srvSample 2 20 rfl (by decide) rfl).1 modeB rfl

/-- C9: with `num_preferred = 0` and a non-empty `info.modes`, the index
arithmetic `num_preferred - 1 = -1` wraps to the last element of
`info.modes`, so `preferred_mode` never fails with an `IndexError` and the
lookup proceeds with the last mode id of the output's mode list. -/
theorem preferred_mode_zero_wraps (o : X11Output) (srv : Server)
    (h0 : (X11Output.info o srv).1.num_preferred = 0)
    (h1 : (X11Output.info o srv).1.modes ≠ []) :
    (X11Output.preferred_mode o srv).1 ≠ Except.error PyErr.indexError
    ∧ (X11Output.preferred_mode o srv).1
      = (match (X11Output.modes o srv).1.filter
            (fun x => x.id == (X11Output.info o srv).1.modes.getLast h1) with
        | [m] => Except.ok m
        | _ => Except.error PyErr.assertionError) := by
  have hmodes : (X11Output.modes (X11Output.info o srv).2 srv).1
      = (X11Output.modes o srv).1 :=
    modes_fst_congr _ _ srv (info_preserves_modes o srv)
  have hneg : ((0 : Nat) : Int) - 1 = -1 := by norm_num
  have key : (X11Output.preferred_mode o srv).1
      = (match (X11Output.modes o srv).1.filter
            (fun x => x.id == (X11Output.info o srv).1.modes.getLast h1) with
        | [m] => Except.ok m
        | _ => Except.error PyErr.assertionError) := by
    simp only [X11Output.preferred_mode, info_again, h0, hneg,
      pyIndex_neg_one _ h1, hmodes]
    cases hfil : (X11Output.modes o srv).1.filter
        (fun x => x.id == (X11Output.info o srv).1.modes.getLast h1) with
    | nil => simp
    | cons a t => cases t with | nil => simp | cons b t2 => simp
  refine ⟨?_, key⟩
  rw [key]
  cases hfil : (X11Output.modes o srv).1.filter
      (fun x => x.id == (X11Output.info o srv).1.modes.getLast h1) with
  | nil => simp
  | cons a t => cases t with | nil => simp | cons b t2 => simp

/-- C9 witness: at the zero-preferred sample server the lookup uses the
last mode id 30 and succeeds without any `IndexError`. -/
theorem preferred_mode_zero_wraps_witness :
    (X11Output.preferred_mode oSample srvZero).1 ≠ Except.error PyErr.indexError
    ∧ (X11Output.preferred_mode oSample srvZero).1 = Except.ok modeC :=
  ⟨(preferred_mode_zero_wraps oSample srvZero rfl (by decide)).1,
   by rw [(preferred_mode_zero_wraps oSample srvZero rfl (by decide)).2]; rfl⟩

/-- The result value of `current_mode`, written out: resolve the active
mode id from the (cache-independent) CRTC info and look it up in the
freshly fetched `srv.modes`. -/
theorem current_mode_fst (o : X11Output) (srv : Server) :
    (X11Output.current_mode o srv).1
      = (match (X11Output.crtc o srv).1.info.mode with
        | none => Except.ok none
        | some mode_id =>
          match srv.modes.filter (fun x => x.id == mode_id) with
          | [m] => Except.ok (some m)
          | _ => Except.error PyErr.assertionError) := by
  simp only [X11Output.current_mode, X11Output._get_modes]
  cases hm : (X11Output.crtc o srv).1.info.mode with
  | none => simp [hm]
  | some mid =>
    cases hL : srv.modes.filter (fun x => x.id == mid) with
    | nil => simp [hm, hL]
    | cons a t =>
      cases t with | nil => simp [hm, hL] | cons b t2 => simp [hm, hL]

/-- The state returned by `current_mode` is exactly the state after the
`crtc` access, in every branch. -/
theorem current_mode_snd (o : X11Output) (srv : Server) :
    (X11Output.current_mode o srv).2 = (X11Output.crtc o srv).2 := by
  simp only [X11Output.current_mode, X11Output._get_modes]
  cases hm : (X11Output.crtc o srv).1.info.mode with
  | none => simp [hm]
  | some mid =>
    cases hL : srv.modes.filter (fun x => x.id == mid) with
    | nil => simp [hm, hL]
    | cons a t =>
      cases t with | nil => simp [hm, hL] | cons b t2 => simp [hm, hL]

/-- C4: `current_mode` ignores the `_modes` cache (its value is the same
for every cache content); with no `mode` field in the resolved CRTC info
it returns the empty result; otherwise it returns the unique
freshly-fetched mode matching the active mode id, and fails with the
assertion when the number of matches is not one. -/
theorem current_mode_spec (o : X11Output) (srv : Server) :
    (∀ c, (X11Output.current_mode { o with _modes := c } srv).1
        = (X11Output.current_mode o srv).1)
    ∧ ((X11Output.crtc o srv).1.info.mode = none →
        (X11Output.current_mode o srv).1 = Except.ok none)
    ∧ (∀ mid m, (X11Output.crtc o srv).1.info.mode = some mid →
        srv.modes.filter (fun x => x.id == mid) = [m] →
        (X11Output.current_mode o srv).1 = Except.ok (some m))
    ∧ (∀ mid, (X11Output.crtc o srv).1.info.mode = some mid →
        (srv.modes.filter (fun x => x.id == mid)).length ≠ 1 →
        (X11Output.current_mode o srv).1
          = Except.error PyErr.assertionError) := by
  refine ⟨?_, ?_, ?_, ?_⟩
  · intro c
    rw [current_mode_fst, current_mode_fst, crtc_fst_indep_modes o srv c]
  · intro h
    rw [current_mode_fst, h]
  · intro mid m h hf
    rw [current_mode_fst, h]
    simp only [hf]
  · intro mid h hL
    rw [current_mode_fst, h]
    cases hfil : srv.modes.filter (fun x => x.id == mid) with
    | nil => simp [hfil]
    | cons a t =>
      cases t with
      | nil => rw [hfil] at hL; exact absurd rfl hL
      | cons b t2 => simp [hfil]

/-- C4 witness: at the sample server the active mode id is 20 and the
unique matching screen mode is returned. -/
theorem current_mode_spec_witness :
    (X11Output.current_mode oSample srvSample).1 = Except.ok (some modeB) :=
  (current_mode_spec oSample srvSample).2.2.1 20 modeB rfl rfl

/-- C10: `current_mode` neither writes the `_modes` cache (the cache after
the call is exactly the cache before it, populated or not) nor reads it
(its value is the same for any two cache contents). -/
theorem current_mode_cache_frame (o : X11Output) (srv : Server) :
    ((X11Output.current_mode o srv).2)._modes = o._modes
    ∧ ∀ c c2, (X11Output.current_mode { o with _modes := c } srv).1
        = (X11Output.current_mode { o with _modes := c2 } srv).1 := by
  constructor
  · rw [current_mode_snd]
    exact crtc_preserves_modes o srv
  · intro c c2
    rw [current_mode_fst, current_mode_fst, crtc_fst_indep_modes o srv c,
      crtc_fst_indep_modes o srv c2]

/-- C10 witness: at the sample accessor (empty cache) the cache is still
unset after `current_mode`, and a populated cache is returned unchanged. -/
theorem current_mode_cache_frame_witness :
    ((X11Output.current_mode oSample srvSample).2)._modes = none
    ∧ (X11Output.current_mode { oSample with _modes := some [] } srvSample).1
      = (X11Output.current_mode { oSample with _modes := some [modeA] }
          srvSample).1 :=
  ⟨(current_mode_cache_frame oSample srvSample).1,
   (current_mode_cache_frame oSample srvSample).2 (some []) (some [modeA])⟩

/-- With the `_edid` cache populated, any number of further reads return
the cached bytes with no property query and leave the accessor unchanged. -/
theorem edidReads_cached (o : X11Output) (b : List Nat)
    (h : o._edid = some b) (l : List Server) :
    edidReads o l = (List.replicate l.length b, o, 0) := by
  induction l with
  | nil => simp [edidReads]
  | cons s rest ih =>
    simp [edidReads, X11Output.edid, h, ih, List.replicate_succ]

/-- C5: starting from an unset `_edid` cache, a sequence of reads (under
arbitrary, possibly changing, server states) returns the bytes fetched by
the first read on every read, issues exactly one property query in total,
and leaves those bytes in the cache. -/
theorem edid_idempotent (o : X11Output) (s : Server) (rest : List Server)
    (h : o._edid = none) :
    (edidReads o (s :: rest)).1
        = List.replicate (rest.length + 1) (s.edidProp o.idx)
    ∧ (edidReads o (s :: rest)).2.2 = 1
    ∧ ((edidReads o (s :: rest)).2.1)._edid = some (s.edidProp o.idx) := by
  have hstep : X11Output.edid o s
      = (s.edidProp o.idx, { o with _edid := some (s.edidProp o.idx) }, 1) := by
    simp [X11Output.edid, h]
  have hc := edidReads_cached { o with _edid := some (s.edidProp o.idx) }
    (s.edidProp o.idx) rfl rest
  refine ⟨?_, ?_, ?_⟩
  · simp [edidReads, hstep, hc, List.replicate_succ]
  · simp [edidReads, hstep, hc]
  · simp [edidReads, hstep, hc]

/-- C5 witness: two reads, the second against a server whose EDID property
has changed, both return the first fetch and issue one query in total. -/
theorem edid_idempotent_witness :
    (edidReads oSample [srvSample, srvAlt]).1
        = [[0, 255, 255, 255], [0, 255, 255, 255]]
    ∧ (edidReads oSample [srvSample, srvAlt]).2.2 = 1 :=
  ⟨by rw [(edid_idempotent oSample srvSample [srvAlt] rfl).1]; rfl,
   (edid_idempotent oSample srvSample [srvAlt] rfl).2.1⟩

/-- C7: `geometry` returns the exact reported `(x, y, width, height)` when
all four fields are present in the resolved CRTC info, and `(0, 0, 0, 0)`
whenever any of the four fields is absent. -/
theorem geometry_spec (m : Monitor) (srv : Server) :
    (∀ x y w h, (X11Output.crtc m._xout srv).1.info.x = some x →
        (X11Output.crtc m._xout srv).1.info.y = some y →
        (X11Output.crtc m._xout srv).1.info.width = some w →
        (X11Output.crtc m._xout srv).1.info.height = some h →
        (Monitor.geometry m srv).1
          = { x := x, y := y, width := w, height := h })
    ∧ ((X11Output.crtc m._xout srv).1.info.x = none
        ∨ (X11Output.crtc m._xout srv).1.info.y = none
        ∨ (X11Output.crtc m._xout srv).1.info.width = none
        ∨ (X11Output.crtc m._xout srv).1.info.height = none →
        (Monitor.geometry m srv).1
          = { x := 0, y := 0, width := 0, height := 0 }) := by
  have gf : (Monitor.geometry m srv).1
      = (match (X11Output.crtc m._xout srv).1.info.x,
            (X11Output.crtc m._xout srv).1.info.y,
            (X11Output.crtc m._xout srv).1.info.width,
            (X11Output.crtc m._xout srv).1.info.height with
        | some x, some y, some w, some h => Geometry.mk x y w h
        | _, _, _, _ => Geometry.mk 0 0 0 0) := rfl
  constructor
  · intro x y w h hx hy hw hh
    rw [gf, hx, hy, hw, hh]
  · intro hd
    cases hx : (X11Output.crtc m._xout srv).1.info.x with
    | none => rw [gf, hx]
    | some x =>
      cases hy : (X11Output.crtc m._xout srv).1.info.y with
      | none => rw [gf, hx, hy]
      | some y =>
        cases hw : (X11Output.crtc m._xout srv).1.info.width with
        | none => rw [gf, hx, hy, hw]
        | some w =>
          cases hh : (X11Output.crtc m._xout srv).1.info.height with
          | none => rw [gf, hx, hy, hw, hh]
          | some h2 => rcases hd with hd | hd | hd | hd <;> simp_all

/-- C7 witness: at the sample server all four fields are present and the
exact reported tuple is returned; with the height removed, all four
default to 0. -/
theorem geometry_spec_witness :
    (Monitor.geometry monSample srvSample).1
      = { x := 5, y := 6, width := 1024, height := 768 }
    ∧ (Monitor.geometry monSample srvNoHeight).1
      = { x := 0, y := 0, width := 0, height := 0 } :=
  ⟨(geometry_spec monSample srvSample).1 5 6 1024 768 rfl rfl rfl rfl,
   (geometry_spec monSample srvNoHeight).2 (Or.inr (Or.inr (Or.inr rfl)))⟩

/-- C8: `idx_primary` always returns the server's current primary output
id, independently of any accessor state (nothing is cached), so two
accesses under different primary states differ accordingly, and
`is_primary` compares the accessor id with the primary id current at the
time of the call. -/
theorem idx_primary_fresh (m : Monitor) (o o2 : X11Output) (s1 s2 : Server) :
    X11Output.idx_primary o s1 = s1.primary
    ∧ X11Output.idx_primary o s1 = X11Output.idx_primary o2 s1
    ∧ (s1.primary ≠ s2.primary →
        X11Output.idx_primary o s1 ≠ X11Output.idx_primary o s2)
    ∧ (Monitor.is_primary m s1 = true ↔ m._xout.idx = s1.primary) := by
  refine ⟨rfl, rfl, fun h => h, ?_⟩
  simp [Monitor.is_primary, X11Output.idx_primary]

/-- C8 witness: the sample monitor is primary under `srvSample`
(primary 1) and the two reads differ once the primary moves to 2 in
`srvAlt`. -/
theorem idx_primary_fresh_witness :
    X11Output.idx_primary oSample srvSample
      ≠ X11Output.idx_primary oSample srvAlt
    ∧ (Monitor.is_primary monSample srvSample = true ↔ monSample._xout.idx = 1) :=
  ⟨(idx_primary_fresh monSample oSample oSample srvSample srvAlt).2.2.1
      (by decide),
   (idx_primary_fresh monSample oSample oSample srvSample srvAlt).2.2.2⟩

end Edider
